import Mathlib

/-!
Verification of the FRED economic-data agent (`src/main.py`).

The program is a four-stage linear pipeline (`think` -> `act` -> `observe` ->
`respond`) orchestrated by `answer`, which wraps the stages in a single
try/except.  External collaborators (the Gemini language model, the FRED data
provider, `json.loads`, and the system clock) are modelled as an `Env` record
of oracle functions; Python exceptions are modelled with `Except PyErr`; each
stage additionally reports the list of external calls it performed, so that
ordering / fail-fast properties can be stated about the trace.

Timestamps are modelled as day numbers (days since the Unix epoch
1970-01-01); `civilFromDays` / `daysFromCivil` convert between day numbers and
Gregorian calendar dates, mirroring the arithmetic `datetime` performs, so
that `strftime` rendering and the 4x365-day window computation can be stated
exactly.
-/

/-- A Gregorian calendar date, as `datetime.date` carries it. -/
structure Date where
  year : Int
  month : Int
  day : Int
  deriving DecidableEq, Repr

/-- Day number -> Gregorian date (days counted from 1970-01-01 = day 0).
This is the standard civil-from-days algorithm; `Int` division in Lean is
floor division, which agrees with the algorithm on the ranges used here. -/
def civilFromDays (z : Int) : Date :=
  let z2 := z + 719468
  let era := z2 / 146097
  let doe := z2 - era * 146097
  let yoe := (doe - doe / 1460 + doe / 36524 - doe / 146096) / 365
  let y := yoe + era * 400
  let doy := doe - (365 * yoe + yoe / 4 - yoe / 100)
  let mp := (5 * doy + 2) / 153
  let d := doy - (153 * mp + 2) / 5 + 1
  let m := mp + (if mp < 10 then 3 else -9)
  ⟨if m ≤ 2 then y + 1 else y, m, d⟩

/-- Gregorian date -> day number (inverse of `civilFromDays`). -/
def daysFromCivil (y m d : Int) : Int :=
  let y2 := if m ≤ 2 then y - 1 else y
  let era := y2 / 400
  let yoe := y2 - era * 400
  let doy := (153 * (m + (if m > 2 then -3 else 9)) + 2) / 5 + d - 1
  let doe := yoe * 365 + yoe / 4 - yoe / 100 + doy
  era * 146097 + doe - 719468

/-- Left-pad a string with zeros to width `k` (as `strftime` zero-pads). -/
def padZeros (k : Nat) (s : String) : String :=
  String.mk (List.replicate (k - s.length) '0') ++ s

/-- Model of `timestamp.strftime("%Y-%m-%d")`: ISO year-month-day rendering. -/
def fmtYMD (dt : Date) : String :=
  padZeros 4 (toString dt.year) ++ "-" ++ padZeros 2 (toString dt.month) ++ "-" ++
    padZeros 2 (toString dt.day)

/-- A numeric value as pandas stores it: integer or floating-point.  Float
values are modelled by rationals (no claim here depends on rounding). -/
inductive PyNum where
  | int (n : Int)
  | float (q : ℚ)
  deriving DecidableEq, Repr

/-- Python `float(...)` applied to a numeric value: the integer case is
coerced, the float case is the identity. -/
def pyFloat : PyNum → ℚ
  | .int n => (n : ℚ)
  | .float q => q

/-- A value stored in the `observations` dictionary built by `observe`
(`float` results and strings are the only kinds that occur there). -/
inductive PyVal where
  | vFloat (q : ℚ)
  | vStr (s : String)
  deriving DecidableEq, Repr

/-- One point of the pandas series returned by `fred.get_series`:
a timestamp (day number) paired with a numeric value. -/
structure Obs where
  ts : Int
  val : PyNum
  deriving DecidableEq, Repr

/-- A parsed JSON document, as `json.loads` produces it. -/
inductive Json where
  | null
  | bool (b : Bool)
  | num (q : ℚ)
  | str (s : String)
  | arr (xs : List Json)
  | obj (kvs : List (String × Json))

/-- Key lookup in a parsed JSON object.  `json.loads` builds a Python dict in
which a later duplicate key overwrites an earlier one, so the lookup prefers
the last binding. -/
def jsonLookup : List (String × Json) → String → Option Json
  | [], _ => none
  | (k, v) :: rest, key =>
      match jsonLookup rest key with
      | some r => some r
      | none => if k = key then some v else none

/-- The Python exceptions the pipeline can raise, with representative
carried data.  `message` below models `str(e)`. -/
inductive PyErr where
  | jsonDecodeError
  | keyError (k : String)
  | typeError
  | indexError
  | valueError (msg : String)
  | providerError (msg : String)
  deriving DecidableEq, Repr

/-- Model of `str(e)`: the text the orchestrator splices after `"Error: "`.  The exact
wording of library messages is abbreviated; no claim depends on it. -/
def PyErr.message : PyErr → String
  | .jsonDecodeError => "Expecting value: line 1 column 1 (char 0)"
  | .keyError k => "\x27" ++ k ++ "\x27"
  | .typeError => "string indices must be integers"
  | .indexError => "single positional indexer is out-of-bounds"
  | .valueError msg => msg
  | .providerError msg => msg

/-- Model of `plan["series_code"]` on an arbitrary parsed JSON value: key lookup on an
object (raising `KeyError` when absent), `TypeError` on anything else. -/
def Json.getKey : Json → String → Except PyErr Json
  | .obj kvs, key =>
      match jsonLookup kvs key with
      | some v => .ok v
      | none => .error (.keyError key)
  | _, _ => .error .typeError

/-- Returns `some v` when the parsed reply is a JSON object carrying `key`.  Used to
state, independently of error classification, when the selector reply has a
usable `series_code`. -/
def hasKey (j : Json) (key : String) : Option Json :=
  match j with
  | .obj kvs => jsonLookup kvs key
  | _ => none

/-- The external world as the agent sees it: the two language-model
entry points (`generate_content` with and without the JSON output
constraint), `json.loads`, the two FRED operations, and the clock
(`datetime.now()`, as a day number).  Each network operation may fail with
any exception (modelling network/auth errors). -/
structure Env where
  llmJson : String → Except PyErr String
  jsonLoads : String → Option Json
  fredSeriesInfo : Json → Except PyErr (List (String × String))
  fredSeries : Json → Int → Int → Except PyErr (List Obs)
  llmText : String → Except PyErr String
  now : Int

/-- One external call, recorded in order of execution. -/
inductive Call where
  | llmStructuredCall (prompt : String)
  | seriesInfoCall (code : Json)
  | seriesCall (code : Json) (startDay stopDay : Int)
  | llmFreeCall (prompt : String)

/-- The prompt `think` builds (the f-string of `src/main.py` lines 47-53,
with the question spliced in). -/
def thinkPrompt (question : String) : String :=
  "What FRED series code would help answer the question below?\n                Question: "
    ++ question
    ++ "\n\n                Common FRED codes: UNRATE (unemployment), FPCPITOTLZGUSA (CPI inflation),\n                GDP, DFF (fed funds rate)\n\n                Return ONLY valid JSON in this exact format: \x7b\"explanation\": \"why this helps\", \"series_code\": \"EXACT_FRED_CODE\"\x7d"

/-- Stage 1, `FREDAgent.think`: one JSON-constrained language-model call,
`json.loads` on the reply, then `plan["series_code"]`. -/
def think (env : Env) (question : String) : Except PyErr Json × List Call :=
  let prompt := thinkPrompt question
  match env.llmJson prompt with
  | .error e => (.error e, [Call.llmStructuredCall prompt])
  | .ok output =>
      match env.jsonLoads output with
      | none => (.error PyErr.jsonDecodeError, [Call.llmStructuredCall prompt])
      | some plan => (plan.getKey "series_code", [Call.llmStructuredCall prompt])

/-- Stage 2, `FREDAgent.act`: series metadata, `info["units"]`, the fixed
window `start = now - timedelta(days=365*4)`, `end = now`, the observations
request, and the diagnostic print that reads `data.iloc[-1]` /
`data.index[-1]` — which raises `IndexError` when the series is empty. -/
def act (env : Env) (seriesCode : Json) : Except PyErr (List Obs × String) × List Call :=
  match env.fredSeriesInfo seriesCode with
  | .error e => (.error e, [Call.seriesInfoCall seriesCode])
  | .ok info =>
      match info.lookup "units" with
      | none => (.error (PyErr.keyError "units"), [Call.seriesInfoCall seriesCode])
      | some units =>
          let startDay := env.now - 365 * 4
          let stopDay := env.now
          match env.fredSeries seriesCode startDay stopDay with
          | .error e =>
              (.error e, [Call.seriesInfoCall seriesCode, Call.seriesCall seriesCode startDay stopDay])
          | .ok data =>
              match data.getLast? with
              | none =>
                  (.error PyErr.indexError,
                   [Call.seriesInfoCall seriesCode, Call.seriesCall seriesCode startDay stopDay])
              | some _ =>
                  (.ok (data, units),
                   [Call.seriesInfoCall seriesCode, Call.seriesCall seriesCode startDay stopDay])

/-- Stage 3, `FREDAgent.observe`: builds the observations dictionary from
`data.iloc[-1]` (the positionally last value, coerced with `float`),
`data.index[-1].strftime("%Y-%m-%d")`, and `units`; reading the last element
of an empty series raises `IndexError`. -/
def observe (data : List Obs) (units : String) : Except PyErr (List (String × PyVal)) :=
  match data.getLast? with
  | none => .error PyErr.indexError
  | some lastObs =>
      .ok [("current_value", PyVal.vFloat (pyFloat lastObs.val)),
           ("current_date", PyVal.vStr (fmtYMD (civilFromDays lastObs.ts))),
           ("units", PyVal.vStr units)]

/-- Python float repr, abbreviated (integral rationals render with a trailing
`.0`; no claim depends on the rendering of non-integral values). -/
def pyFloatRepr (q : ℚ) : String :=
  if q.den = 1 then toString q.num ++ ".0" else toString q

/-- Rendering of one dictionary value inside `json.dumps`. -/
def dumpsVal : PyVal → String
  | .vFloat q => pyFloatRepr q
  | .vStr s => "\"" ++ s ++ "\""

/-- Model of `json.dumps(observations, indent=2)` on the observations dictionary. -/
def jsonDumps (kvs : List (String × PyVal)) : String :=
  "\x7b\n" ++
    String.intercalate ",\n" (kvs.map (fun kv => "  \"" ++ kv.1 ++ "\": " ++ dumpsVal kv.2)) ++
    "\n\x7d"

/-- The prompt `respond` builds (the f-string of `src/main.py` lines 115-119). -/
def respondPrompt (question : String) (observations : List (String × PyVal)) : String :=
  "Answer this question using the data:\nQuestion: " ++ question ++ "\nData: "
    ++ jsonDumps observations
    ++ "\n\nProvide a brief, clear answer citing specific numbers."

/-- Stage 4, `FREDAgent.respond`: one unconstrained language-model call whose
text reply is returned as is. -/
def respond (env : Env) (question : String) (observations : List (String × PyVal)) :
    Except PyErr String × List Call :=
  let prompt := respondPrompt question observations
  (env.llmText prompt, [Call.llmFreeCall prompt])

/-- The body of the `try` block of `FREDAgent.answer`: the four stages in
strict sequence, the first raised exception propagating out. -/
def runStages (env : Env) (question : String) : Except PyErr String × List Call :=
  let (r1, t1) := think env question
  match r1 with
  | .error e => (.error e, t1)
  | .ok seriesCode =>
      let (r2, t2) := act env seriesCode
      match r2 with
      | .error e => (.error e, t1 ++ t2)
      | .ok (data, units) =>
          match observe data units with
          | .error e => (.error e, t1 ++ t2)
          | .ok observations =>
              let (r3, t3) := respond env question observations
              (r3, t1 ++ t2 ++ t3)

/-- Orchestrator `FREDAgent.answer`: the try/except wrapper — the responder text on
success, `"Error: " + str(e)` on any stage exception. -/
def answer (env : Env) (question : String) : String × List Call :=
  match runStages env question with
  | (.ok response, t) => (response, t)
  | (.error e, t) => ("Error: " ++ e.message, t)

/-- The two credentials the constructor holds after a successful startup. -/
structure AgentConfig where
  fredKey : String
  googleKey : String
  deriving DecidableEq, Repr

/-- Modelled from the spec: `FREDAgent.__init__` passes
`os.getenv("FRED_API_KEY")` / `os.getenv("GOOGLE_API_KEY")` to the `Fred` and
`genai.Client` constructors; those constructors are external collaborators
(not part of this repository) which, per the spec (sections 6 and their own
documented behaviour), raise `ValueError` at construction time when no API
key is available from the argument or the process environment. -/
def agentInit (getenv : String → Option String) : Except PyErr AgentConfig :=
  match getenv "FRED_API_KEY" with
  | none => .error (PyErr.valueError "You need to set a valid API key.")
  | some fredKey =>
      match getenv "GOOGLE_API_KEY" with
      | none => .error (PyErr.valueError "Missing key inputs argument!")
      | some googleKey => .ok ⟨fredKey, googleKey⟩

/-- The chronologically last point of a window: the point with the maximal
timestamp (the last such point under ties). -/
def chronoLast : List Obs → Option Obs
  | [] => none
  | o :: rest => some (rest.foldl (fun a b => if a.ts ≤ b.ts then b else a) o)

/-- A calendar-aware subtraction of `k` years (what the window computation
deliberately does NOT do). -/
def subYearsCalendar (dt : Date) (k : Int) : Date :=
  ⟨dt.year - k, dt.month, dt.day⟩

/-! ### Helper lemmas -/

instance {ε α : Type} [DecidableEq ε] [DecidableEq α] : DecidableEq (Except ε α) := fun x y =>
  match x, y with
  | .ok a, .ok b =>
      if h : a = b then .isTrue (by rw [h])
      else .isFalse (by intro hh; cases hh; exact h rfl)
  | .error a, .error b =>
      if h : a = b then .isTrue (by rw [h])
      else .isFalse (by intro hh; cases hh; exact h rfl)
  | .ok _, .error _ => .isFalse (by intro hh; cases hh)
  | .error _, .ok _ => .isFalse (by intro hh; cases hh)

lemma getKey_of_hasKey {j : Json} {k : String} {v : Json} (h : hasKey j k = some v) :
    Json.getKey j k = .ok v := by
  cases j <;> simp [hasKey] at h
  simp [Json.getKey, h]

lemma getKey_error_of_hasKey_none :
    ∀ (j : Json) (k : String), hasKey j k = none → ∃ e, Json.getKey j k = Except.error e
  | .obj kvs, k, h => ⟨PyErr.keyError k, by
      simp [hasKey] at h
      simp [Json.getKey, h]⟩
  | .null, _, _ => ⟨PyErr.typeError, rfl⟩
  | .bool _, _, _ => ⟨PyErr.typeError, rfl⟩
  | .num _, _, _ => ⟨PyErr.typeError, rfl⟩
  | .str _, _, _ => ⟨PyErr.typeError, rfl⟩
  | .arr _, _, _ => ⟨PyErr.typeError, rfl⟩

lemma hasKey_of_getKey_ok {j : Json} {k : String} {v : Json} (h : Json.getKey j k = .ok v) :
    hasKey j k = some v := by
  cases j <;> simp [Json.getKey] at h
  rename_i kvs
  cases hl : jsonLookup kvs k with
  | none => rw [hl] at h; cases h
  | some w => rw [hl] at h; cases h; simpa [hasKey] using hl

lemma ts_le_getLast_of_chain :
    ∀ (w : List Obs) (o : Obs), w.getLast? = some o →
      List.Chain' (fun a b => a.ts ≤ b.ts) w → ∀ o' ∈ w, o'.ts ≤ o.ts := by
  intro w
  induction w with
  | nil => intro o h; cases h
  | cons a rest ih =>
      intro o h hc o' ho'
      cases rest with
      | nil =>
          simp at h
          subst h
          simp at ho'
          subst ho'
          exact le_refl _
      | cons b rest2 =>
          have h2 : (b :: rest2).getLast? = some o := by
            simpa [List.getLast?_cons_cons] using h
          have hab : a.ts ≤ b.ts := (List.chain'_cons.mp hc).1
          have hc2 : List.Chain' (fun x y => x.ts ≤ y.ts) (b :: rest2) :=
            (List.chain'_cons.mp hc).2
          rcases List.mem_cons.mp ho' with rfl | hmem
          · exact le_trans hab (ih o h2 hc2 b (List.mem_cons_self b rest2))
          · exact ih o h2 hc2 o' hmem

/-! ### Concrete environments used by witnesses and counterexamples -/

/-- A fully successful run: well-formed selector reply, known series with
units "Percent", two ascending observations, and a fixed clock. -/
def envHappy : Env :=
  { llmJson := fun _ =>
      .ok "\x7b\"explanation\": \"tracks joblessness\", \"series_code\": \"UNRATE\"\x7d"
    jsonLoads := fun _ =>
      some (Json.obj [("explanation", Json.str "tracks joblessness"),
                      ("series_code", Json.str "UNRATE")])
    fredSeriesInfo := fun _ => .ok [("id", "UNRATE"), ("units", "Percent")]
    fredSeries := fun _ _ _ =>
      .ok [⟨daysFromCivil 2024 4 1, PyNum.float 3⟩,
           ⟨daysFromCivil 2024 5 1, PyNum.float 4⟩]
    llmText := fun _ => .ok "The US unemployment rate is 4.0 Percent as of 2024-05-01."
    now := daysFromCivil 2024 6 15 }

/-- An ascending two-point window (2024-04-01 then 2024-05-01). -/
def ascWindow : List Obs :=
  [⟨daysFromCivil 2024 4 1, PyNum.float 3⟩,
   ⟨daysFromCivil 2024 5 1, PyNum.float 4⟩]

/-- The same two points in descending order: the chronologically last point
(2024-05-01, 4.0) sits first. -/
def descWindow : List Obs :=
  [⟨daysFromCivil 2024 5 1, PyNum.float 4⟩,
   ⟨daysFromCivil 2024 4 1, PyNum.float 3⟩]

/-! ### C1 -/

/-- C1: for every environment and question, `answer` never propagates an
exception: when some stage raises, the exception is caught at the top level
and the result is `"Error: " ++ str(e)`; otherwise the result is the
Responder's text.  In both cases `answer` returns normally with a string. -/
theorem answer_total_over_exceptions (env : Env) (question : String) :
    (∃ e, (runStages env question).1 = .error e ∧
        (answer env question).1 = "Error: " ++ e.message) ∨
    (∃ r, (runStages env question).1 = .ok r ∧ (answer env question).1 = r) := by
  rcases h : runStages env question with ⟨r, t⟩
  cases r with
  | error e => exact Or.inl ⟨e, by simp [h], by simp [answer, h]⟩
  | ok s => exact Or.inr ⟨s, by simp [h], by simp [answer, h]⟩

/-! ### C2 -/

/-- C2 counterexample: on a window given in descending order, `observe`
reports the positionally last point (2024-04-01, 3.9), not the
chronologically last point (2024-05-01, 4.0), so the summary does NOT
reflect the chronologically last point regardless of input ordering. -/
theorem observe_chrono_counterexample :
    chronoLast descWindow = some ⟨daysFromCivil 2024 5 1, PyNum.float 4⟩ ∧
    observe descWindow "Percent" ≠
      Except.ok [("current_value", PyVal.vFloat 4),
                 ("current_date", PyVal.vStr (fmtYMD (civilFromDays (daysFromCivil 2024 5 1)))),
                 ("units", PyVal.vStr "Percent")] := by
  constructor
  · decide
  · decide

/-- C2 (amended): `observe` is a pure function of the window and units; it
returns the record built from the *positionally* last pair of the window,
and when the window is sorted ascending by timestamp (the invariant the
Fetcher is assumed to guarantee) that pair has maximal timestamp, i.e. is
the chronologically last point. -/
theorem observe_positional_last (w : List Obs) (u : String) (o : Obs)
    (h : w.getLast? = some o) :
    observe w u = .ok [("current_value", PyVal.vFloat (pyFloat o.val)),
                       ("current_date", PyVal.vStr (fmtYMD (civilFromDays o.ts))),
                       ("units", PyVal.vStr u)] ∧
    (List.Chain' (fun a b => a.ts ≤ b.ts) w → ∀ o' ∈ w, o'.ts ≤ o.ts) := by
  constructor
  · simp [observe, h]
  · intro hc o' ho'
    exact ts_le_getLast_of_chain w o h hc o' ho'

/-- Witness for C2 (amended), at the concrete ascending window. -/
theorem observe_positional_last_witness :
    ascWindow.getLast? = some ⟨daysFromCivil 2024 5 1, PyNum.float 4⟩ ∧
    (observe ascWindow "Percent" =
        .ok [("current_value", PyVal.vFloat (pyFloat (PyNum.float 4))),
             ("current_date",
               PyVal.vStr (fmtYMD (civilFromDays (daysFromCivil 2024 5 1)))),
             ("units", PyVal.vStr "Percent")] ∧
      (List.Chain' (fun a b => a.ts ≤ b.ts) ascWindow →
        ∀ o' ∈ ascWindow, o'.ts ≤ (daysFromCivil 2024 5 1 : Int))) :=
  ⟨rfl, observe_positional_last ascWindow "Percent" ⟨daysFromCivil 2024 5 1, PyNum.float 4⟩ rfl⟩

/-! ### C10 -/

/-- C10: for every non-empty window, the summary has exactly the three keys
`current_value`, `current_date`, `units` in that order; `current_value` is
the last value coerced by `float` (so an integer-valued point is reported as
a float), and `current_date` is the last timestamp rendered as a
`"%Y-%m-%d"` string. -/
theorem observe_concrete_form (w : List Obs) (u : String) (o : Obs)
    (h : w.getLast? = some o) :
    observe w u = .ok [("current_value", PyVal.vFloat (pyFloat o.val)),
                       ("current_date", PyVal.vStr (fmtYMD (civilFromDays o.ts))),
                       ("units", PyVal.vStr u)] ∧
    (∀ d, observe w u = .ok d →
        d.map Prod.fst = ["current_value", "current_date", "units"]) ∧
    (∀ n : ℤ, o.val = PyNum.int n → pyFloat o.val = (n : ℚ)) := by
  refine ⟨by simp [observe, h], ?_, ?_⟩
  · intro d hd
    simp [observe, h] at hd
    subst hd
    rfl
  · intro n hn
    rw [hn]
    rfl

/-- Witness for C10, at a one-point window whose value is the integer 4:
the reported `current_value` is the float 4.0 and the reported
`current_date` is `"2024-05-01"`. -/
theorem observe_concrete_form_witness :
    ([⟨daysFromCivil 2024 5 1, PyNum.int 4⟩] : List Obs).getLast? =
        some ⟨daysFromCivil 2024 5 1, PyNum.int 4⟩ ∧
    (observe [⟨daysFromCivil 2024 5 1, PyNum.int 4⟩] "Percent" =
        .ok [("current_value", PyVal.vFloat (pyFloat (PyNum.int 4))),
             ("current_date",
               PyVal.vStr (fmtYMD (civilFromDays (daysFromCivil 2024 5 1)))),
             ("units", PyVal.vStr "Percent")] ∧
      (∀ d, observe [⟨daysFromCivil 2024 5 1, PyNum.int 4⟩] "Percent" = .ok d →
          d.map Prod.fst = ["current_value", "current_date", "units"]) ∧
      (∀ n : ℤ, PyNum.int 4 = PyNum.int n → pyFloat (PyNum.int 4) = (n : ℚ))) :=
  ⟨rfl, observe_concrete_form [⟨daysFromCivil 2024 5 1, PyNum.int 4⟩] "Percent"
      ⟨daysFromCivil 2024 5 1, PyNum.int 4⟩ rfl⟩

/-! ### C3 -/

/-- C3: for every series code (whenever the metadata step succeeds so that
the observations request is issued), `act` requests observations over the
window `[now - 365*4 days, now]`; and concretely, 1460 days before
2024-06-15 is 2020-06-16, which differs from the calendar-aware 4-year
subtraction 2020-06-15. -/
theorem act_fixed_window (env : Env) (code : Json)
    (info : List (String × String)) (u : String)
    (h1 : env.fredSeriesInfo code = .ok info)
    (h2 : info.lookup "units" = some u) :
    Call.seriesCall code (env.now - 365 * 4) env.now ∈ (act env code).2 ∧
    (365 * 4 : Int) = 1460 ∧
    civilFromDays (daysFromCivil 2024 6 15 - 1460) = ⟨2020, 6, 16⟩ ∧
    civilFromDays (daysFromCivil 2024 6 15 - 1460) ≠ subYearsCalendar ⟨2024, 6, 15⟩ 4 := by
  refine ⟨?_, by norm_num, by decide, by decide⟩
  simp only [act, h1, h2]
  norm_num
  rcases h3 : env.fredSeries code (env.now - 1460) env.now with e | data
  · simp
  · cases h4 : data.getLast? <;> simp [h4]

/-- An environment for the window scenario: clock fixed at 2024-06-15,
known series with units "Percent". -/
def envWindow : Env :=
  { llmJson := fun _ => .ok "\x7b\x7d"
    jsonLoads := fun _ => some (Json.obj [])
    fredSeriesInfo := fun _ => .ok [("units", "Percent")]
    fredSeries := fun _ _ _ => .ok []
    llmText := fun _ => .ok "unused"
    now := daysFromCivil 2024 6 15 }

/-- Witness for C3 at `envWindow` and the series code "UNRATE". -/
theorem act_fixed_window_witness :
    envWindow.fredSeriesInfo (Json.str "UNRATE") = .ok [("units", "Percent")] ∧
    ([("units", "Percent")] : List (String × String)).lookup "units" = some "Percent" ∧
    (Call.seriesCall (Json.str "UNRATE") (envWindow.now - 365 * 4) envWindow.now ∈
        (act envWindow (Json.str "UNRATE")).2 ∧
      (365 * 4 : Int) = 1460 ∧
      civilFromDays (daysFromCivil 2024 6 15 - 1460) = ⟨2020, 6, 16⟩ ∧
      civilFromDays (daysFromCivil 2024 6 15 - 1460) ≠ subYearsCalendar ⟨2024, 6, 15⟩ 4) :=
  ⟨rfl, rfl, act_fixed_window envWindow (Json.str "UNRATE") [("units", "Percent")] "Percent" rfl rfl⟩

/-! ### C4 -/

/-- C4: when the structured reply of stage 1 has no usable `series_code`
(it fails to parse, or the parsed value carries no such key), the
orchestrator's result is an error message and the external-call trace is
exactly the single first language-model call: no data-provider operation and
no second language-model call happen. -/
theorem answer_failfast_missing_code (env : Env) (question output : String)
    (h1 : env.llmJson (thinkPrompt question) = .ok output)
    (h2 : ∀ plan, env.jsonLoads output = some plan → hasKey plan "series_code" = none) :
    (∃ e, (answer env question).1 = "Error: " ++ PyErr.message e) ∧
    (answer env question).2 = [Call.llmStructuredCall (thinkPrompt question)] := by
  have hthink : ∃ e, think env question =
      (.error e, [Call.llmStructuredCall (thinkPrompt question)]) := by
    simp only [think, h1]
    cases hp : env.jsonLoads output with
    | none => exact ⟨PyErr.jsonDecodeError, rfl⟩
    | some plan =>
        obtain ⟨e, he⟩ := getKey_error_of_hasKey_none plan "series_code" (h2 plan hp)
        exact ⟨e, by simp [he]⟩
  obtain ⟨e, he⟩ := hthink
  refine ⟨⟨e, ?_⟩, ?_⟩ <;> simp [answer, runStages, he]

/-- An environment whose selector reply parses to an object with no
`series_code` key. -/
def envNoCode : Env :=
  { llmJson := fun _ => .ok "\x7b\"explanation\": \"no code given\"\x7d"
    jsonLoads := fun _ => some (Json.obj [("explanation", Json.str "no code given")])
    fredSeriesInfo := fun _ => .ok [("units", "Percent")]
    fredSeries := fun _ _ _ => .ok []
    llmText := fun _ => .ok "unused"
    now := daysFromCivil 2024 6 15 }

/-- Witness for C4 at `envNoCode`. -/
theorem answer_failfast_missing_code_witness :
    (∃ e, (answer envNoCode "What is the US inflation rate?").1 =
        "Error: " ++ PyErr.message e) ∧
    (answer envNoCode "What is the US inflation rate?").2 =
      [Call.llmStructuredCall (thinkPrompt "What is the US inflation rate?")] :=
  answer_failfast_missing_code envNoCode "What is the US inflation rate?"
    "\x7b\"explanation\": \"no code given\"\x7d" rfl
    (fun plan hp => by cases hp; rfl)

/-! ### C5 -/

/-- C5: when the provider returns zero observations for the selected window,
the Data Fetcher itself fails (reading the latest point of the empty series
raises), the orchestrator's result is an error message, and no free-text
language-model call (the Responder) appears in the trace. -/
theorem answer_empty_series (env : Env) (question output : String) (plan code : Json)
    (info : List (String × String)) (u : String)
    (h1 : env.llmJson (thinkPrompt question) = .ok output)
    (h2 : env.jsonLoads output = some plan)
    (h3 : hasKey plan "series_code" = some code)
    (h4 : env.fredSeriesInfo code = .ok info)
    (h5 : info.lookup "units" = some u)
    (h6 : env.fredSeries code (env.now - 365 * 4) env.now = .ok []) :
    (act env code).1 = .error PyErr.indexError ∧
    (answer env question).1 = "Error: " ++ PyErr.message PyErr.indexError ∧
    ∀ p, Call.llmFreeCall p ∉ (answer env question).2 := by
  have hthink : think env question =
      (.ok code, [Call.llmStructuredCall (thinkPrompt question)]) := by
    simp only [think, h1, h2, getKey_of_hasKey h3]
  have hact : act env code =
      (.error PyErr.indexError,
       [Call.seriesInfoCall code, Call.seriesCall code (env.now - 365 * 4) env.now]) := by
    norm_num at h6 ⊢
    simp [act, h4, h5, h6]
  refine ⟨by rw [hact], ?_, ?_⟩
  · simp [answer, runStages, hthink, hact]
  · intro p
    simp [answer, runStages, hthink, hact]

/-- An environment in which the provider knows the series but returns zero
observations for the window. -/
def envEmptySeries : Env :=
  { llmJson := fun _ => .ok "\x7b\"series_code\": \"UNRATE\"\x7d"
    jsonLoads := fun _ => some (Json.obj [("series_code", Json.str "UNRATE")])
    fredSeriesInfo := fun _ => .ok [("units", "Percent")]
    fredSeries := fun _ _ _ => .ok []
    llmText := fun _ => .ok "unused"
    now := daysFromCivil 2024 6 15 }

/-- Witness for C5 at `envEmptySeries`. -/
theorem answer_empty_series_witness :
    (act envEmptySeries (Json.str "UNRATE")).1 = .error PyErr.indexError ∧
    (answer envEmptySeries "Q").1 = "Error: " ++ PyErr.message PyErr.indexError ∧
    ∀ p, Call.llmFreeCall p ∉ (answer envEmptySeries "Q").2 :=
  answer_empty_series envEmptySeries "Q" "\x7b\"series_code\": \"UNRATE\"\x7d"
    (Json.obj [("series_code", Json.str "UNRATE")]) (Json.str "UNRATE")
    [("units", "Percent")] "Percent" rfl rfl rfl rfl rfl rfl

/-! ### C6 -/

/-- C6: given that the first language-model call returned a reply, stage 1
fails exactly when that reply has no usable `series_code` (not parseable, or
the parsed value carries no such key); when the reply parses to an object
carrying the key, `think` returns the value stored at `series_code`. -/
theorem think_malformed_iff (env : Env) (question output : String)
    (h : env.llmJson (thinkPrompt question) = .ok output) :
    ((∃ e, (think env question).1 = .error e) ↔
      ∀ plan v, ¬(env.jsonLoads output = some plan ∧ hasKey plan "series_code" = some v)) ∧
    (∀ plan v, env.jsonLoads output = some plan → hasKey plan "series_code" = some v →
      (think env question).1 = .ok v) := by
  constructor
  · cases hp : env.jsonLoads output with
    | none =>
        constructor
        · intro _ plan v hpv
          exact Option.noConfusion hpv.1
        · intro _
          exact ⟨PyErr.jsonDecodeError, by simp [think, h, hp]⟩
    | some plan =>
        cases hk : hasKey plan "series_code" with
        | none =>
            constructor
            · intro _ plan' v hpv
              obtain ⟨hpv1, hpv2⟩ := hpv
              cases Option.some.inj hpv1
              rw [hk] at hpv2
              exact Option.noConfusion hpv2
            · intro _
              obtain ⟨e, he⟩ := getKey_error_of_hasKey_none plan "series_code" hk
              exact ⟨e, by simp [think, h, hp, he]⟩
        | some v =>
            constructor
            · intro hfail
              obtain ⟨e, he⟩ := hfail
              rw [show (think env question).1 = Except.ok v by
                    simp [think, h, hp, getKey_of_hasKey hk]] at he
              exact Except.noConfusion he
            · intro hall
              exact ((hall plan v) ⟨rfl, hk⟩).elim
  · intro plan v hp hk
    simp [think, h, hp, getKey_of_hasKey hk]

/-- An environment whose selector reply is not valid JSON. -/
def envNotJson : Env :=
  { llmJson := fun _ => .ok "I would look at UNRATE."
    jsonLoads := fun _ => none
    fredSeriesInfo := fun _ => .ok [("units", "Percent")]
    fredSeries := fun _ _ _ => .ok []
    llmText := fun _ => .ok "unused"
    now := daysFromCivil 2024 6 15 }

/-- Witness for C6 at `envNotJson` (an unparseable reply). -/
theorem think_malformed_iff_witness :
    ((∃ e, (think envNotJson "Q").1 = .error e) ↔
      ∀ plan v, ¬(envNotJson.jsonLoads "I would look at UNRATE." = some plan ∧
        hasKey plan "series_code" = some v)) ∧
    (∀ plan v, envNotJson.jsonLoads "I would look at UNRATE." = some plan →
      hasKey plan "series_code" = some v → (think envNotJson "Q").1 = .ok v) :=
  think_malformed_iff envNotJson "Q" "I would look at UNRATE." rfl

/-! ### C7 -/

/-- The observation record of the happy-path run. -/
def happyRecord : List (String × PyVal) :=
  [("current_value", PyVal.vFloat 4),
   ("current_date", PyVal.vStr "2024-05-01"),
   ("units", PyVal.vStr "Percent")]

/-- C7: the Responder returns the language model's raw text reply verbatim
(no post-processing, no validation), and on a fully successful run the
orchestrator returns that very text unchanged as the final answer. -/
theorem answer_verbatim_on_success (env : Env) (question output finalText : String)
    (plan code : Json) (info : List (String × String)) (u : String)
    (data : List Obs) (record : List (String × PyVal))
    (h1 : env.llmJson (thinkPrompt question) = .ok output)
    (h2 : env.jsonLoads output = some plan)
    (h3 : hasKey plan "series_code" = some code)
    (h4 : env.fredSeriesInfo code = .ok info)
    (h5 : info.lookup "units" = some u)
    (h6 : env.fredSeries code (env.now - 365 * 4) env.now = .ok data)
    (h7 : observe data u = .ok record)
    (h8 : env.llmText (respondPrompt question record) = .ok finalText) :
    (respond env question record).1 = .ok finalText ∧
    (answer env question).1 = finalText := by
  have hlast : ∃ o, data.getLast? = some o := by
    cases hl : data.getLast? with
    | none => rw [observe, hl] at h7; cases h7
    | some o => exact ⟨o, rfl⟩
  obtain ⟨o, ho⟩ := hlast
  have hthink : think env question =
      (.ok code, [Call.llmStructuredCall (thinkPrompt question)]) := by
    simp only [think, h1, h2, getKey_of_hasKey h3]
  have hact : act env code =
      (.ok (data, u),
       [Call.seriesInfoCall code, Call.seriesCall code (env.now - 365 * 4) env.now]) := by
    norm_num at h6 ⊢
    simp [act, h4, h5, h6, ho]
  refine ⟨by simp [respond, h8], ?_⟩
  simp [answer, runStages, hthink, hact, h7, respond, h8]

/-- Witness for C7 at `envHappy`: the Responder's reply is returned as the
final answer, character for character. -/
theorem answer_verbatim_on_success_witness :
    (respond envHappy "What is the US unemployment rate?" happyRecord).1 =
        .ok "The US unemployment rate is 4.0 Percent as of 2024-05-01." ∧
    (answer envHappy "What is the US unemployment rate?").1 =
        "The US unemployment rate is 4.0 Percent as of 2024-05-01." :=
  answer_verbatim_on_success envHappy "What is the US unemployment rate?"
    "\x7b\"explanation\": \"tracks joblessness\", \"series_code\": \"UNRATE\"\x7d"
    "The US unemployment rate is 4.0 Percent as of 2024-05-01."
    (Json.obj [("explanation", Json.str "tracks joblessness"),
               ("series_code", Json.str "UNRATE")])
    (Json.str "UNRATE") [("id", "UNRATE"), ("units", "Percent")] "Percent"
    [⟨daysFromCivil 2024 4 1, PyNum.float 3⟩, ⟨daysFromCivil 2024 5 1, PyNum.float 4⟩]
    happyRecord rfl rfl rfl rfl rfl rfl (by decide) rfl

/-! ### C8 -/

/-- An environment whose selector reply carries an empty `series_code`. -/
def envEmptyCode : Env :=
  { llmJson := fun _ => .ok "\x7b\"series_code\": \"\"\x7d"
    jsonLoads := fun _ => some (Json.obj [("series_code", Json.str "")])
    fredSeriesInfo := fun _ => .error (PyErr.providerError "Bad Request")
    fredSeries := fun _ _ _ => .ok []
    llmText := fun _ => .ok "unused"
    now := daysFromCivil 2024 6 15 }

/-- C8 counterexample: when the structured reply carries
`"series_code": ""`, `think` returns normally with the EMPTY string as the
series code — emptiness is not checked, so the returned code is not
guaranteed non-empty. -/
theorem think_returns_empty_code :
    (think envEmptyCode "Q").1 = .ok (Json.str "") := rfl

/-- C8 (amended): whenever `think` returns normally, the key `series_code`
was present in the parsed reply and the returned value is the one stored
there (presence is guaranteed; non-emptiness is not checked, and the code is
not validated against the provider's catalog). -/
theorem think_key_present_on_success (env : Env) (question : String) (v : Json)
    (h : (think env question).1 = .ok v) :
    ∃ output plan, env.llmJson (thinkPrompt question) = .ok output ∧
      env.jsonLoads output = some plan ∧ hasKey plan "series_code" = some v := by
  simp only [think] at h
  cases hll : env.llmJson (thinkPrompt question) with
  | error e => simp [hll] at h
  | ok output =>
      cases hp : env.jsonLoads output with
      | none => simp [hll, hp] at h
      | some plan =>
          simp only [hll, hp] at h
          exact ⟨output, plan, rfl, hp, hasKey_of_getKey_ok h⟩

/-- Witness for C8 (amended) at `envHappy`. -/
theorem think_key_present_on_success_witness :
    ∃ output plan,
      envHappy.llmJson (thinkPrompt "What is the US unemployment rate?") = .ok output ∧
      envHappy.jsonLoads output = some plan ∧
      hasKey plan "series_code" = some (Json.str "UNRATE") :=
  think_key_present_on_success envHappy "What is the US unemployment rate?"
    (Json.str "UNRATE") rfl

/-! ### C9 -/

/-- C9: if either provider API key is absent from the process environment,
agent construction fails at startup (before any question is processed). -/
theorem agentInit_fails_fast (getenv : String → Option String)
    (h : getenv "FRED_API_KEY" = none ∨ getenv "GOOGLE_API_KEY" = none) :
    ∃ e, agentInit getenv = .error e := by
  rcases h with h | h
  · exact ⟨PyErr.valueError "You need to set a valid API key.", by simp [agentInit, h]⟩
  · cases hf : getenv "FRED_API_KEY" with
    | none =>
        exact ⟨PyErr.valueError "You need to set a valid API key.", by simp [agentInit, hf]⟩
    | some k =>
        exact ⟨PyErr.valueError "Missing key inputs argument!", by simp [agentInit, hf, h]⟩

/-- Witness for C9 at the empty environment. -/
theorem agentInit_fails_fast_witness :
    ((fun _ : String => (none : Option String)) "FRED_API_KEY" = none ∨
      (fun _ : String => (none : Option String)) "GOOGLE_API_KEY" = none) ∧
    ∃ e, agentInit (fun _ => none) = .error e :=
  ⟨Or.inl rfl, agentInit_fails_fast (fun _ => none) (Or.inl rfl)⟩
